import Mathlib

set_option maxHeartbeats 1000000

/-!
Verification development for the financial calculation engine of the Fin-app
repository.

The engine lives in src/services/calculationService.ts; its latest revision in
the repository (src/unnamed/part_002, together with the types revision in
src/unnamed/part_003) generalises the loan solver to take a payment frequency,
and is the version embedded here (the named file is the same code with the
payment frequency fixed to 12).  The data model comes from src/types.ts and
src/unnamed/part_003.

JavaScript numbers are modelled by exact rationals (ℚ); TypeScript string
enums by their underlying strings; absent optional fields by `Option`.
Fields that the dispatcher dereferences with the TypeScript non-null
assertion `!` are modelled as present (a missing field would propagate NaN,
which has no exact-arithmetic counterpart).
-/

/-- Exact-arithmetic model of JavaScript `Math.pow`.  Every theorem below
exercises it only at integer exponents, where JS `pow` agrees with iterated
multiplication over exact arithmetic; at a fractional exponent the true
result is irrational, hence unrepresentable in ℚ, and the model returns 0
(no claim depends on that case, and every theorem that could reach it
carries an integrality hypothesis). -/
def jsPow (b e : ℚ) : ℚ := if e.den = 1 then b ^ e.num else 0

/-- Abstract model of JavaScript `Math.log` (natural logarithm): the true
value is irrational for every rational argument other than 1, hence
unrepresentable in ℚ.  It is used only by the TIME_PERIOD solver, and no
claim depends on the numeric value it produces, only on the shape of the
result record carrying it. -/
def jsLog (x : ℚ) : ℚ := 0 * x

/-- Values of the `CompoundingFrequency` enum of src/types.ts:
ANNUALLY, SEMI_ANNUALLY, QUARTERLY, MONTHLY, DAILY. -/
def compoundingFrequencies : List ℕ := [1, 2, 4, 12, 365]

/-- Values of the `PaymentFrequency` enum of the loan-aware types revision
(src/unnamed/part_003): MONTHLY, BI_WEEKLY, WEEKLY, ANNUALLY, SEMI_ANNUALLY,
QUARTERLY. -/
def paymentFrequencies : List ℕ := [12, 26, 52, 1, 2, 4]

/-- Values of the `CalculationTarget` string enum of src/types.ts. -/
def calculationTargets : List String :=
  ["FUTURE_VALUE", "PRINCIPAL", "ANNUAL_INTEREST_RATE", "TIME_PERIOD", "LOAN_PAYMENT"]

/-- One point of the FUTURE_VALUE growth series (`{ year, value }` objects
pushed into `growthData` in the source). -/
structure GrowthPoint where
  year : ℕ
  value : ℚ
deriving DecidableEq, Repr

/-- `AmortizationEntry` of src/types.ts. -/
structure AmortizationEntry where
  paymentNumber : ℕ
  startingBalance : ℚ
  interestPaid : ℚ
  principalPaid : ℚ
  endingBalance : ℚ
deriving DecidableEq, Repr

/-- `CalculationResult` of src/types.ts (loan-aware revision).  Optional
TypeScript fields are `Option`s defaulting to `none`, so each record literal
below lists exactly the fields the corresponding source `return` lists. -/
structure CalculationResult where
  calculatedFutureValue : Option ℚ := none
  calculatedPrincipal : Option ℚ := none
  calculatedAnnualInterestRate : Option ℚ := none
  calculatedTimePeriod : Option ℚ := none
  calculatedMonthlyPayment : Option ℚ := none
  calculatedTotalInterestPaid : Option ℚ := none
  calculatedTotalAmountPaid : Option ℚ := none
  currencyCode : String
  customCurrencySymbol : Option String := none
  error : Option String := none
  growthData : Option (List GrowthPoint) := none
  realFutureValue : Option ℚ := none
  calculationTarget : Option String := none
  amortizationSchedule : Option (List AmortizationEntry) := none
deriving DecidableEq, Repr

/-- `InvestmentInputs` of src/types.ts (loan-aware revision).  The numeric
input fields are optional in TypeScript but dereferenced with `!` by the
dispatcher, so they are modelled as present. -/
structure InvestmentInputs where
  calculationTarget : String
  principalInput : ℚ
  futureValueInput : ℚ
  annualInterestRateInput : ℚ
  timePeriodInput : ℚ
  loanAmountInput : ℚ
  loanInterestRateInput : ℚ
  loanTermInput : ℚ
  paymentFrequency : ℕ
  compoundingFrequency : ℕ
  currencyCode : String
  customCurrencySymbol : Option String := none
  inflationRate : Option ℚ := none
deriving DecidableEq, Repr

/-- The source guard `inflationRate !== undefined && inflationRate < 0`. -/
def inflationProvidedAndNegative : Option ℚ → Bool
  | some ir => ir < 0
  | none => false

/-- The source guard `inflationRate !== undefined && inflationRate >= 0`. -/
def inflationProvidedAndNonneg : Option ℚ → Bool
  | some ir => 0 ≤ ir
  | none => false

/-- Extract the provided inflation rate (only consulted under the guards
above, mirroring the narrowed TypeScript access). -/
def inflationValue : Option ℚ → ℚ
  | some ir => ir
  | none => 0

/-- `_calculateFutureValue` of the source (underscore dropped: Lean reserves
leading-underscore names for inaccessible variables). -/
def calculateFutureValue (principal annualInterestRate timePeriod : ℚ)
    (compoundingFrequency : ℕ) (currencyCode : String)
    (customCurrencySymbol : Option String) (inflationRate : Option ℚ) :
    CalculationResult :=
  if principal ≤ 0 then
    { calculatedFutureValue := some 0, currencyCode := currencyCode,
      customCurrencySymbol := customCurrencySymbol,
      error := some "Principal amount must be positive.",
      calculationTarget := some "FUTURE_VALUE" }
  else if annualInterestRate < 0 then
    { calculatedFutureValue := some 0, currencyCode := currencyCode,
      customCurrencySymbol := customCurrencySymbol,
      error := some "Annual interest rate cannot be negative.",
      calculationTarget := some "FUTURE_VALUE" }
  else if timePeriod ≤ 0 then
    { calculatedFutureValue := some 0, currencyCode := currencyCode,
      customCurrencySymbol := customCurrencySymbol,
      error := some "Time period must be positive.",
      calculationTarget := some "FUTURE_VALUE" }
  else if compoundingFrequency ≤ 0 then
    { calculatedFutureValue := some 0, currencyCode := currencyCode,
      customCurrencySymbol := customCurrencySymbol,
      error := some "Compounding frequency must be positive.",
      calculationTarget := some "FUTURE_VALUE" }
  else if inflationProvidedAndNegative inflationRate then
    { calculatedFutureValue := some 0, currencyCode := currencyCode,
      customCurrencySymbol := customCurrencySymbol,
      error := some "Inflation rate cannot be negative.",
      calculationTarget := some "FUTURE_VALUE" }
  else
    let r := annualInterestRate / 100
    let n : ℚ := compoundingFrequency
    let t := timePeriod
    let calculatedFutureValue := principal * jsPow (1 + r / n) (n * t)
    let realFutureValue : Option ℚ :=
      if inflationProvidedAndNonneg inflationRate ∧ 0 < t then
        some (calculatedFutureValue /
          jsPow (1 + inflationValue inflationRate / 100) t)
      else none
    let growthData : List GrowthPoint :=
      (List.range ⌊t⌋.toNat).map (fun k =>
        { year := k + 1, value := principal * jsPow (1 + r / n) (n * (k + 1)) })
    { calculatedFutureValue := some calculatedFutureValue,
      currencyCode := currencyCode,
      customCurrencySymbol := customCurrencySymbol,
      growthData := some growthData,
      realFutureValue := realFutureValue,
      calculationTarget := some "FUTURE_VALUE" }

/-- `_calculatePresentValue` of the source. -/
def calculatePresentValue (futureValue annualInterestRate timePeriod : ℚ)
    (compoundingFrequency : ℕ) (currencyCode : String)
    (customCurrencySymbol : Option String) : CalculationResult :=
  if futureValue ≤ 0 then
    { calculatedPrincipal := some 0, currencyCode := currencyCode,
      customCurrencySymbol := customCurrencySymbol,
      error := some "Future value must be positive.",
      calculationTarget := some "PRINCIPAL" }
  else if annualInterestRate < 0 then
    { calculatedPrincipal := some 0, currencyCode := currencyCode,
      customCurrencySymbol := customCurrencySymbol,
      error := some "Annual interest rate cannot be negative.",
      calculationTarget := some "PRINCIPAL" }
  else if timePeriod ≤ 0 then
    { calculatedPrincipal := some 0, currencyCode := currencyCode,
      customCurrencySymbol := customCurrencySymbol,
      error := some "Time period must be positive.",
      calculationTarget := some "PRINCIPAL" }
  else if compoundingFrequency ≤ 0 then
    { calculatedPrincipal := some 0, currencyCode := currencyCode,
      customCurrencySymbol := customCurrencySymbol,
      error := some "Compounding frequency must be positive.",
      calculationTarget := some "PRINCIPAL" }
  else
    let r := annualInterestRate / 100
    let n : ℚ := compoundingFrequency
    let t := timePeriod
    let calculatedPrincipal := futureValue / jsPow (1 + r / n) (n * t)
    { calculatedPrincipal := some calculatedPrincipal,
      currencyCode := currencyCode,
      customCurrencySymbol := customCurrencySymbol,
      calculationTarget := some "PRINCIPAL" }

/-- `_calculateAnnualInterestRate` of the source. -/
def calculateAnnualInterestRate (principal futureValue timePeriod : ℚ)
    (compoundingFrequency : ℕ) (currencyCode : String)
    (customCurrencySymbol : Option String) : CalculationResult :=
  if principal ≤ 0 then
    { calculatedAnnualInterestRate := some 0, currencyCode := currencyCode,
      customCurrencySymbol := customCurrencySymbol,
      error := some "Principal amount must be positive.",
      calculationTarget := some "ANNUAL_INTEREST_RATE" }
  else if futureValue ≤ 0 then
    { calculatedAnnualInterestRate := some 0, currencyCode := currencyCode,
      customCurrencySymbol := customCurrencySymbol,
      error := some "Future value must be positive.",
      calculationTarget := some "ANNUAL_INTEREST_RATE" }
  else if timePeriod ≤ 0 then
    { calculatedAnnualInterestRate := some 0, currencyCode := currencyCode,
      customCurrencySymbol := customCurrencySymbol,
      error := some "Time period must be positive.",
      calculationTarget := some "ANNUAL_INTEREST_RATE" }
  else if compoundingFrequency ≤ 0 then
    { calculatedAnnualInterestRate := some 0, currencyCode := currencyCode,
      customCurrencySymbol := customCurrencySymbol,
      error := some "Compounding frequency must be positive.",
      calculationTarget := some "ANNUAL_INTEREST_RATE" }
  else if futureValue < principal then
    { calculatedAnnualInterestRate := some 0, currencyCode := currencyCode,
      customCurrencySymbol := customCurrencySymbol,
      error := some "Future value must be greater than or equal to principal for a positive interest rate.",
      calculationTarget := some "ANNUAL_INTEREST_RATE" }
  else
    let n : ℚ := compoundingFrequency
    let t := timePeriod
    let calculatedAnnualInterestRate :=
      n * (jsPow (futureValue / principal) (1 / (n * t)) - 1) * 100
    { calculatedAnnualInterestRate := some calculatedAnnualInterestRate,
      currencyCode := currencyCode,
      customCurrencySymbol := customCurrencySymbol,
      calculationTarget := some "ANNUAL_INTEREST_RATE" }

/-- `_calculateTimePeriod` of the source. -/
def calculateTimePeriod (principal futureValue annualInterestRate : ℚ)
    (compoundingFrequency : ℕ) (currencyCode : String)
    (customCurrencySymbol : Option String) : CalculationResult :=
  if principal ≤ 0 then
    { calculatedTimePeriod := some 0, currencyCode := currencyCode,
      customCurrencySymbol := customCurrencySymbol,
      error := some "Principal amount must be positive.",
      calculationTarget := some "TIME_PERIOD" }
  else if futureValue ≤ 0 then
    { calculatedTimePeriod := some 0, currencyCode := currencyCode,
      customCurrencySymbol := customCurrencySymbol,
      error := some "Future value must be positive.",
      calculationTarget := some "TIME_PERIOD" }
  else if annualInterestRate ≤ 0 then
    { calculatedTimePeriod := some 0, currencyCode := currencyCode,
      customCurrencySymbol := customCurrencySymbol,
      error := some "Annual interest rate must be positive for time calculation.",
      calculationTarget := some "TIME_PERIOD" }
  else if compoundingFrequency ≤ 0 then
    { calculatedTimePeriod := some 0, currencyCode := currencyCode,
      customCurrencySymbol := customCurrencySymbol,
      error := some "Compounding frequency must be positive.",
      calculationTarget := some "TIME_PERIOD" }
  else if futureValue < principal then
    { calculatedTimePeriod := some 0, currencyCode := currencyCode,
      customCurrencySymbol := customCurrencySymbol,
      error := some "Future value must be greater than or equal to principal for a positive time period.",
      calculationTarget := some "TIME_PERIOD" }
  else
    let r := annualInterestRate / 100
    let n : ℚ := compoundingFrequency
    let calculatedTimePeriod :=
      jsLog (futureValue / principal) / (n * jsLog (1 + r / n))
    { calculatedTimePeriod := some calculatedTimePeriod,
      currencyCode := currencyCode,
      customCurrencySymbol := customCurrencySymbol,
      calculationTarget := some "TIME_PERIOD" }

/-- One iteration step plus recursion for the amortization loop
`for (let i = 1; i <= numberOfPayments; i++)` of `_calculateLoanPayment`:
`fuel` is the number of loop iterations still to run, `i` the current
payment number, `balance` the running `currentBalance`, `payment` the
running (mutable, adjusted on the last payment) periodic payment.  Returns
the entries pushed from this point on together with the final value of the
`calculatedPeriodicPayment` variable. -/
def amortizeFrom (rate nPayments : ℚ) (payment balance : ℚ) (i : ℕ) :
    ℕ → List AmortizationEntry × ℚ
  | 0 => ([], payment)
  | fuel + 1 =>
    let interestPayment := balance * rate
    let principalPayment :=
      if (i : ℚ) = nPayments then balance else payment - interestPayment
    let adjustedPayment :=
      if (i : ℚ) = nPayments then balance + interestPayment else payment
    let newBalance := balance - principalPayment
    let entry : AmortizationEntry :=
      { paymentNumber := i,
        startingBalance := newBalance + principalPayment,
        interestPaid := interestPayment,
        principalPaid := principalPayment,
        endingBalance := max 0 newBalance }
    let rest := amortizeFrom rate nPayments adjustedPayment newBalance (i + 1) fuel
    (entry :: rest.1, rest.2)

/-- `_calculateLoanPayment` of the source (src/unnamed/part_002 revision,
which takes the payment frequency; the earlier named revision is this
function with `paymentFrequency = 12`).  The loop iterates while the
integer counter `i` satisfies `i ≤ numberOfPayments`, i.e. it runs
`⌊numberOfPayments⌋` times (none when `numberOfPayments < 1`). -/
def calculateLoanPayment (loanAmount loanInterestRate loanTerm : ℚ)
    (paymentFrequency : ℕ) (currencyCode : String)
    (customCurrencySymbol : Option String) : CalculationResult :=
  if loanAmount ≤ 0 then
    { calculatedMonthlyPayment := some 0, calculatedTotalInterestPaid := some 0,
      calculatedTotalAmountPaid := some 0, currencyCode := currencyCode,
      customCurrencySymbol := customCurrencySymbol,
      error := some "Loan amount must be positive.",
      calculationTarget := some "LOAN_PAYMENT" }
  else if loanInterestRate < 0 then
    { calculatedMonthlyPayment := some 0, calculatedTotalInterestPaid := some 0,
      calculatedTotalAmountPaid := some 0, currencyCode := currencyCode,
      customCurrencySymbol := customCurrencySymbol,
      error := some "Loan interest rate cannot be negative.",
      calculationTarget := some "LOAN_PAYMENT" }
  else if loanTerm ≤ 0 then
    { calculatedMonthlyPayment := some 0, calculatedTotalInterestPaid := some 0,
      calculatedTotalAmountPaid := some 0, currencyCode := currencyCode,
      customCurrencySymbol := customCurrencySymbol,
      error := some "Loan term must be positive.",
      calculationTarget := some "LOAN_PAYMENT" }
  else
    let periodicInterestRate := (loanInterestRate / 100) / (paymentFrequency : ℚ)
    let numberOfPayments := loanTerm * (paymentFrequency : ℚ)
    let initialPayment :=
      if periodicInterestRate = 0 then loanAmount / numberOfPayments
      else
        loanAmount *
          (periodicInterestRate * jsPow (1 + periodicInterestRate) numberOfPayments) /
          (jsPow (1 + periodicInterestRate) numberOfPayments - 1)
    let loopResult :=
      amortizeFrom periodicInterestRate numberOfPayments initialPayment loanAmount 1
        ⌊numberOfPayments⌋.toNat
    let amortizationSchedule := loopResult.1
    let calculatedPeriodicPayment := loopResult.2
    let calculatedTotalAmountPaid :=
      amortizationSchedule.foldl (fun sum entry => sum + (entry.interestPaid + entry.principalPaid)) 0
    let calculatedTotalInterestPaid := calculatedTotalAmountPaid - loanAmount
    { calculatedMonthlyPayment := some calculatedPeriodicPayment,
      calculatedTotalInterestPaid := some calculatedTotalInterestPaid,
      calculatedTotalAmountPaid := some calculatedTotalAmountPaid,
      currencyCode := currencyCode,
      customCurrencySymbol := customCurrencySymbol,
      calculationTarget := some "LOAN_PAYMENT",
      amortizationSchedule := some amortizationSchedule }

/-- `performFinancialCalculation` of the source: dispatch on the calculation
target (a TypeScript string enum, hence a string match at runtime), then
stamp `calculationTarget` onto whatever the branch produced. -/
def performFinancialCalculation (inputs : InvestmentInputs) : CalculationResult :=
  let result :=
    if inputs.calculationTarget = "FUTURE_VALUE" then
      calculateFutureValue inputs.principalInput inputs.annualInterestRateInput
        inputs.timePeriodInput inputs.compoundingFrequency inputs.currencyCode
        inputs.customCurrencySymbol inputs.inflationRate
    else if inputs.calculationTarget = "PRINCIPAL" then
      calculatePresentValue inputs.futureValueInput inputs.annualInterestRateInput
        inputs.timePeriodInput inputs.compoundingFrequency inputs.currencyCode
        inputs.customCurrencySymbol
    else if inputs.calculationTarget = "ANNUAL_INTEREST_RATE" then
      calculateAnnualInterestRate inputs.principalInput inputs.futureValueInput
        inputs.timePeriodInput inputs.compoundingFrequency inputs.currencyCode
        inputs.customCurrencySymbol
    else if inputs.calculationTarget = "TIME_PERIOD" then
      calculateTimePeriod inputs.principalInput inputs.futureValueInput
        inputs.annualInterestRateInput inputs.compoundingFrequency inputs.currencyCode
        inputs.customCurrencySymbol
    else if inputs.calculationTarget = "LOAN_PAYMENT" then
      calculateLoanPayment inputs.loanAmountInput inputs.loanInterestRateInput
        inputs.loanTermInput inputs.paymentFrequency inputs.currencyCode
        inputs.customCurrencySymbol
    else
      { currencyCode := inputs.currencyCode,
        customCurrencySymbol := inputs.customCurrencySymbol,
        error := some "Invalid calculation target.",
        calculationTarget := some inputs.calculationTarget }
  { result with calculationTarget := some inputs.calculationTarget }

/-- The uncorrected balance update of one amortization round of the loan
solver: `balance -= payment − balance × rate`. -/
def nextBalance (rate payment b : ℚ) : ℚ := b - (payment - b * rate)

/-- A result whose computed numeric fields are all absent or zero and which
carries no auxiliary series: the shape every solver produces on an error
path. -/
def fullyZeroed (res : CalculationResult) : Prop :=
  (res.calculatedFutureValue = none ∨ res.calculatedFutureValue = some 0) ∧
  (res.calculatedPrincipal = none ∨ res.calculatedPrincipal = some 0) ∧
  (res.calculatedAnnualInterestRate = none ∨ res.calculatedAnnualInterestRate = some 0) ∧
  (res.calculatedTimePeriod = none ∨ res.calculatedTimePeriod = some 0) ∧
  (res.calculatedMonthlyPayment = none ∨ res.calculatedMonthlyPayment = some 0) ∧
  (res.calculatedTotalInterestPaid = none ∨ res.calculatedTotalInterestPaid = some 0) ∧
  (res.calculatedTotalAmountPaid = none ∨ res.calculatedTotalAmountPaid = some 0) ∧
  res.growthData = none ∧ res.realFutureValue = none ∧ res.amortizationSchedule = none

/-! ### Basic lemmas about the embedded operations -/

/-- `jsPow` at a natural-number exponent is just the monoid power: on this
fragment the model agrees exactly with `Math.pow` over exact arithmetic. -/
theorem jsPow_natCast (b : ℚ) (m : ℕ) : jsPow b (m : ℚ) = b ^ m := by
  simp [jsPow, Rat.den_natCast, Rat.num_natCast, zpow_natCast]

/-- The amortization loop with no iterations left: no entries, and the
payment variable is returned unchanged. -/
theorem amortizeFrom_zero (rate nPayments payment balance : ℚ) (i : ℕ) :
    amortizeFrom rate nPayments payment balance i 0 = ([], payment) := rfl

/-- One fully reduced unfolding step of the amortization loop. -/
theorem amortizeFrom_succ (rate nPayments payment balance : ℚ) (i fuel : ℕ) :
    amortizeFrom rate nPayments payment balance i (fuel + 1) =
      (({ paymentNumber := i,
          startingBalance :=
            (balance - (if (i : ℚ) = nPayments then balance else payment - balance * rate)) +
              (if (i : ℚ) = nPayments then balance else payment - balance * rate),
          interestPaid := balance * rate,
          principalPaid := (if (i : ℚ) = nPayments then balance else payment - balance * rate),
          endingBalance :=
            max 0 (balance - (if (i : ℚ) = nPayments then balance else payment - balance * rate)) } :
            AmortizationEntry) ::
        (amortizeFrom rate nPayments
          (if (i : ℚ) = nPayments then balance + balance * rate else payment)
          (balance - (if (i : ℚ) = nPayments then balance else payment - balance * rate))
          (i + 1) fuel).1,
       (amortizeFrom rate nPayments
          (if (i : ℚ) = nPayments then balance + balance * rate else payment)
          (balance - (if (i : ℚ) = nPayments then balance else payment - balance * rate))
          (i + 1) fuel).2) := rfl

/-- The amortization loop pushes exactly one entry per iteration. -/
theorem amortizeFrom_length (rate nPayments : ℚ) :
    ∀ (fuel : ℕ) (payment balance : ℚ) (i : ℕ),
      (amortizeFrom rate nPayments payment balance i fuel).1.length = fuel := by
  intro fuel
  induction fuel with
  | zero => intro p b i; rfl
  | succ f ih => intro p b i; simp [amortizeFrom, ih]

/-- Folding the running total over the schedule is summing over it. -/
theorem foldl_add_eq_sum (f : AmortizationEntry → ℚ) :
    ∀ (l : List AmortizationEntry) (a : ℚ),
      l.foldl (fun s e => s + f e) a = a + (l.map f).sum := by
  intro l
  induction l with
  | nil => intro a; simp
  | cons e l ih => intro a; simp [ih]; ring

/-- Every entry the loop records satisfies the two local identities
`interestPaid = startingBalance × rate` and
`endingBalance = max 0 (startingBalance − principalPaid)`. -/
theorem amortizeFrom_mem_invariants (rate nPayments : ℚ) :
    ∀ (fuel : ℕ) (payment balance : ℚ) (i : ℕ),
      ∀ e ∈ (amortizeFrom rate nPayments payment balance i fuel).1,
        e.interestPaid = e.startingBalance * rate ∧
        e.endingBalance = max 0 (e.startingBalance - e.principalPaid) := by
  intro fuel
  induction fuel with
  | zero => intro p b i e he; simp [amortizeFrom] at he
  | succ f ih =>
    intro p b i e he
    simp only [amortizeFrom, List.mem_cons] at he
    rcases he with he | he
    · subst he
      constructor
      · simp only []
        ring_nf
      · simp only []
        ring_nf
    · exact ih _ _ _ e he

/-- The positions in the schedule carry consecutive payment numbers
starting at the initial loop counter. -/
theorem amortizeFrom_paymentNumber (rate nPayments : ℚ) :
    ∀ (fuel : ℕ) (payment balance : ℚ) (i k : ℕ) (e : AmortizationEntry),
      (amortizeFrom rate nPayments payment balance i fuel).1[k]? = some e →
      e.paymentNumber = i + k := by
  intro fuel
  induction fuel with
  | zero => intro p b i k e he; simp [amortizeFrom] at he
  | succ f ih =>
    intro p b i k e he
    simp only [amortizeFrom] at he
    cases k with
    | zero =>
      simp only [List.getElem?_cons_zero, Option.some.injEq] at he
      subst he; rfl
    | succ k' =>
      simp only [List.getElem?_cons_succ] at he
      have := ih _ _ (i + 1) k' e he
      omega

/-- The first entry the loop records (if any) starts at the balance the
loop was entered with. -/
theorem amortizeFrom_head_start (rate nPayments p b : ℚ) (i fuel : ℕ) :
    ∀ e, (amortizeFrom rate nPayments p b i (fuel + 1)).1.head? = some e →
      e.startingBalance = b := by
  intro e he
  simp only [amortizeFrom, List.head?_cons, Option.some.injEq] at he
  subst he
  simp only []
  ring

/-- When the loop runs at least once and its final counter value hits
`nPayments` exactly (the `i === numberOfPayments` correction), the very last
entry it records has ending balance 0: the correction pays off the whole
remaining balance. -/
theorem amortizeFrom_getLast_ending (rate nPayments : ℚ) :
    ∀ (fuel : ℕ) (payment balance : ℚ) (i : ℕ),
      ((i : ℚ) + (fuel : ℚ) = nPayments + 1) → 1 ≤ fuel →
      ∃ e, (amortizeFrom rate nPayments payment balance i fuel).1.getLast? = some e ∧
        e.endingBalance = 0 := by
  intro fuel
  induction fuel with
  | zero => intro p b i _ h1; omega
  | succ f ih =>
    intro p b i hN _
    rw [amortizeFrom_succ]
    cases f with
    | zero =>
      have hi : (i : ℚ) = nPayments := by push_cast at hN; linarith
      simp only [if_pos hi, amortizeFrom_zero]
      exact ⟨_, rfl, by simp⟩
    | succ f' =>
      have hi : (i : ℚ) ≠ nPayments := by
        intro h
        rw [← h] at hN
        push_cast at hN
        have : (0 : ℚ) ≤ (f' : ℚ) := by positivity
        linarith
      have hN' : (((i + 1 : ℕ) : ℚ) + ((f' + 1 : ℕ) : ℚ)) = nPayments + 1 := by
        push_cast at hN ⊢; linarith
      simp only [if_neg hi]
      obtain ⟨e, he, hz⟩ := ih p (b - (p - b * rate)) (i + 1) hN' (by omega)
      refine ⟨e, ?_, hz⟩
      have hlen := amortizeFrom_length rate nPayments (f' + 1) p (b - (p - b * rate)) (i + 1)
      cases hrest : (amortizeFrom rate nPayments p (b - (p - b * rate)) (i + 1) (f' + 1)).1 with
      | nil => rw [hrest] at hlen; simp at hlen
      | cons x xs =>
        rw [hrest] at he
        rw [List.getLast?_cons_cons]
        exact he

/-- If the loop counter never hits `nPayments` (in particular whenever
`nPayments` is not an integer), the final-payment correction never fires and
the payment variable comes back unchanged. -/
theorem amortizeFrom_snd_of_ne (rate nPayments : ℚ) :
    ∀ (fuel : ℕ) (payment balance : ℚ) (i : ℕ),
      (∀ k : ℕ, i ≤ k → k < i + fuel → (k : ℚ) ≠ nPayments) →
      (amortizeFrom rate nPayments payment balance i fuel).2 = payment := by
  intro fuel
  induction fuel with
  | zero => intro p b i _; rfl
  | succ f ih =>
    intro p b i h
    rw [amortizeFrom_succ]
    have hi : (i : ℚ) ≠ nPayments := h i le_rfl (by omega)
    simp only [if_neg hi]
    exact ih p (b - (p - b * rate)) (i + 1) (fun k hk hk' => h k (by omega) (by omega))

/-- With a zero periodic rate the loop subtracts the payment from the
balance each round; when the counter hits `nPayments` on the final round,
the returned (corrected) payment is the balance that remained before that
round. -/
theorem amortizeFrom_zero_rate_snd (nPayments p : ℚ) :
    ∀ (f : ℕ) (balance : ℚ) (i : ℕ),
      ((i : ℚ) + (f : ℚ) = nPayments) →
      (amortizeFrom 0 nPayments p balance i (f + 1)).2 = balance - f * p := by
  intro f
  induction f with
  | zero =>
    intro b i hN
    have hi : (i : ℚ) = nPayments := by push_cast at hN; linarith
    rw [amortizeFrom_succ]
    simp only [if_pos hi, amortizeFrom_zero]
    push_cast
    ring
  | succ f' ih =>
    intro b i hN
    have hi : (i : ℚ) ≠ nPayments := by
      intro h
      rw [← h] at hN
      push_cast at hN
      have : (0 : ℚ) ≤ (f' : ℚ) := by positivity
      linarith
    have hN' : ((i + 1 : ℕ) : ℚ) + (f' : ℚ) = nPayments := by push_cast at hN ⊢; linarith
    rw [amortizeFrom_succ]
    simp only [if_neg hi]
    rw [ih (b - (p - b * 0)) (i + 1) hN']
    push_cast
    ring

/-- Closed form of the iterated balance update at rate 0: straight-line
subtraction of the payment. -/
theorem nextBalance_iterate_zero (p : ℚ) :
    ∀ (k : ℕ) (b : ℚ), (fun x => nextBalance 0 p x)^[k] b = b - k * p := by
  intro k
  induction k with
  | zero => intro b; simp
  | succ k' ih =>
    intro b
    rw [Function.iterate_succ_apply, ih]
    simp only [nextBalance]
    push_cast
    ring

/-- Closed form of the iterated balance update at a nonzero rate: an affine
map around its fixed point `payment / rate`. -/
theorem nextBalance_iterate_closed (r p : ℚ) (hr : r ≠ 0) :
    ∀ (k : ℕ) (b : ℚ),
      (fun x => nextBalance r p x)^[k] b = (b - p / r) * (1 + r) ^ k + p / r := by
  intro k
  induction k with
  | zero => intro b; simp
  | succ k' ih =>
    intro b
    rw [Function.iterate_succ_apply, ih]
    simp only [nextBalance]
    field_simp
    ring

/-- Consecutive schedule entries chain: each entry's starting balance is the
previous entry's ending balance, provided the running balance never goes
negative before the final round (so that the `max 0` clamp is inactive). -/
theorem amortizeFrom_chain (rate nPayments p : ℚ) :
    ∀ (fuel : ℕ) (balance : ℚ) (i : ℕ),
      ((i : ℚ) + (fuel : ℚ) = nPayments + 1) →
      (∀ k : ℕ, k < fuel → 0 ≤ (fun x => nextBalance rate p x)^[k] balance) →
      List.Chain' (fun e₁ e₂ => e₂.startingBalance = e₁.endingBalance)
        (amortizeFrom rate nPayments p balance i fuel).1 := by
  intro fuel
  induction fuel with
  | zero => intro b i _ _; simp [amortizeFrom_zero]
  | succ f ih =>
    intro b i hN hnn
    rw [amortizeFrom_succ]
    cases f with
    | zero => simp [amortizeFrom_zero]
    | succ f' =>
      have hi : (i : ℚ) ≠ nPayments := by
        intro h
        rw [← h] at hN
        push_cast at hN
        have : (0 : ℚ) ≤ (f' : ℚ) := by positivity
        linarith
      simp only [if_neg hi]
      rw [List.chain'_cons']
      constructor
      · intro y hy
        rw [Option.mem_def] at hy
        have hstart := amortizeFrom_head_start rate nPayments p (b - (p - b * rate)) (i + 1) f' y hy
        rw [hstart]
        have h1 := hnn 1 (by omega)
        simp only [Function.iterate_one, nextBalance] at h1
        exact (max_eq_right h1).symm
      · apply ih (b - (p - b * rate)) (i + 1)
        · push_cast at hN ⊢; linarith
        · intro k hk
          have := hnn (k + 1) (by omega)
          rw [Function.iterate_succ_apply] at this
          simpa only [nextBalance] using this

/-- At a zero periodic rate and payment `A / N`, the running balance stays
nonnegative through round `Nn`. -/
theorem zero_rate_balance_nonneg (A : ℚ) (Nn : ℕ) (hA : 0 < A) (hN : Nn ≠ 0)
    (k : ℕ) (hk : k ≤ Nn) :
    0 ≤ (fun x => nextBalance 0 (A / (Nn : ℚ)) x)^[k] A := by
  rw [nextBalance_iterate_zero]
  have hNpos : (0 : ℚ) < (Nn : ℚ) := by exact_mod_cast Nat.pos_of_ne_zero hN
  have hkN : (k : ℚ) ≤ (Nn : ℚ) := by exact_mod_cast hk
  have hmul : (k : ℚ) * (A / Nn) ≤ (Nn : ℚ) * (A / Nn) := by
    apply mul_le_mul_of_nonneg_right hkN
    positivity
  have h2 : (Nn : ℚ) * (A / Nn) = A := by field_simp
  linarith

/-- With the amortizing-annuity payment, the running balance after `k` of the
`Nn` rounds equals `A·(Q − qᵏ)/(Q − 1)` with `q = 1 + rate` and `Q = q^Nn`,
hence stays nonnegative through round `Nn`. -/
theorem annuity_balance_nonneg (r A : ℚ) (Nn : ℕ) (hr : 0 < r) (hA : 0 < A)
    (hN : Nn ≠ 0) (k : ℕ) (hk : k ≤ Nn) :
    0 ≤ (fun x => nextBalance r (A * (r * (1 + r) ^ Nn) / ((1 + r) ^ Nn - 1)) x)^[k] A := by
  have hq : (1 : ℚ) < 1 + r := by linarith
  have hQ : (1 : ℚ) < (1 + r) ^ Nn := one_lt_pow₀ hq hN
  have hQ1 : (0 : ℚ) < (1 + r) ^ Nn - 1 := by linarith
  have hqk : (1 + r) ^ k ≤ (1 + r) ^ Nn := pow_le_pow_right₀ (le_of_lt hq) hk
  rw [nextBalance_iterate_closed _ _ (ne_of_gt hr)]
  have key : (A - A * (r * (1 + r) ^ Nn) / ((1 + r) ^ Nn - 1) / r) * (1 + r) ^ k +
      A * (r * (1 + r) ^ Nn) / ((1 + r) ^ Nn - 1) / r =
      A * ((1 + r) ^ Nn - (1 + r) ^ k) / ((1 + r) ^ Nn - 1) := by
    field_simp
    ring
  rw [key]
  apply div_nonneg
  · apply mul_nonneg (le_of_lt hA)
    linarith
  · linarith

/-- Unfolding of the loan solver when all three validation guards pass. -/
theorem calculateLoanPayment_eq (loanAmount loanInterestRate loanTerm : ℚ)
    (pf : ℕ) (cc : String) (sym : Option String)
    (hA : 0 < loanAmount) (hr : 0 ≤ loanInterestRate) (ht : 0 < loanTerm) :
    calculateLoanPayment loanAmount loanInterestRate loanTerm pf cc sym =
      { calculatedMonthlyPayment :=
          some (amortizeFrom ((loanInterestRate / 100) / (pf : ℚ)) (loanTerm * (pf : ℚ))
            (if (loanInterestRate / 100) / (pf : ℚ) = 0 then
              loanAmount / (loanTerm * (pf : ℚ))
            else
              loanAmount *
                ((loanInterestRate / 100) / (pf : ℚ) *
                  jsPow (1 + (loanInterestRate / 100) / (pf : ℚ)) (loanTerm * (pf : ℚ))) /
                (jsPow (1 + (loanInterestRate / 100) / (pf : ℚ)) (loanTerm * (pf : ℚ)) - 1))
            loanAmount 1 ⌊loanTerm * (pf : ℚ)⌋.toNat).2,
        calculatedTotalInterestPaid :=
          some ((amortizeFrom ((loanInterestRate / 100) / (pf : ℚ)) (loanTerm * (pf : ℚ))
            (if (loanInterestRate / 100) / (pf : ℚ) = 0 then
              loanAmount / (loanTerm * (pf : ℚ))
            else
              loanAmount *
                ((loanInterestRate / 100) / (pf : ℚ) *
                  jsPow (1 + (loanInterestRate / 100) / (pf : ℚ)) (loanTerm * (pf : ℚ))) /
                (jsPow (1 + (loanInterestRate / 100) / (pf : ℚ)) (loanTerm * (pf : ℚ)) - 1))
            loanAmount 1 ⌊loanTerm * (pf : ℚ)⌋.toNat).1.foldl
              (fun sum entry => sum + (entry.interestPaid + entry.principalPaid)) 0 - loanAmount),
        calculatedTotalAmountPaid :=
          some ((amortizeFrom ((loanInterestRate / 100) / (pf : ℚ)) (loanTerm * (pf : ℚ))
            (if (loanInterestRate / 100) / (pf : ℚ) = 0 then
              loanAmount / (loanTerm * (pf : ℚ))
            else
              loanAmount *
                ((loanInterestRate / 100) / (pf : ℚ) *
                  jsPow (1 + (loanInterestRate / 100) / (pf : ℚ)) (loanTerm * (pf : ℚ))) /
                (jsPow (1 + (loanInterestRate / 100) / (pf : ℚ)) (loanTerm * (pf : ℚ)) - 1))
            loanAmount 1 ⌊loanTerm * (pf : ℚ)⌋.toNat).1.foldl
              (fun sum entry => sum + (entry.interestPaid + entry.principalPaid)) 0),
        currencyCode := cc,
        customCurrencySymbol := sym,
        calculationTarget := some "LOAN_PAYMENT",
        amortizationSchedule :=
          some (amortizeFrom ((loanInterestRate / 100) / (pf : ℚ)) (loanTerm * (pf : ℚ))
            (if (loanInterestRate / 100) / (pf : ℚ) = 0 then
              loanAmount / (loanTerm * (pf : ℚ))
            else
              loanAmount *
                ((loanInterestRate / 100) / (pf : ℚ) *
                  jsPow (1 + (loanInterestRate / 100) / (pf : ℚ)) (loanTerm * (pf : ℚ))) /
                (jsPow (1 + (loanInterestRate / 100) / (pf : ℚ)) (loanTerm * (pf : ℚ)) - 1))
            loanAmount 1 ⌊loanTerm * (pf : ℚ)⌋.toNat).1 } := by
  simp only [calculateLoanPayment]
  rw [if_neg (not_le.mpr hA), if_neg (not_lt.mpr hr), if_neg (not_le.mpr ht)]

/-- Unfolding of the future-value solver when all five validation guards
pass. -/
theorem calculateFutureValue_eq (P r t : ℚ) (n : ℕ) (cc : String)
    (sym : Option String) (infl : Option ℚ)
    (hP : 0 < P) (hr : 0 ≤ r) (ht : 0 < t) (hn : n ≠ 0)
    (hinfl : inflationProvidedAndNegative infl = false) :
    calculateFutureValue P r t n cc sym infl =
      { calculatedFutureValue := some (P * jsPow (1 + (r / 100) / (n : ℚ)) ((n : ℚ) * t)),
        currencyCode := cc,
        customCurrencySymbol := sym,
        growthData := some ((List.range ⌊t⌋.toNat).map (fun k =>
          { year := k + 1,
            value := P * jsPow (1 + (r / 100) / (n : ℚ)) ((n : ℚ) * (k + 1)) })),
        realFutureValue :=
          if inflationProvidedAndNonneg infl ∧ 0 < t then
            some ((P * jsPow (1 + (r / 100) / (n : ℚ)) ((n : ℚ) * t)) /
              jsPow (1 + inflationValue infl / 100) t)
          else none,
        calculationTarget := some "FUTURE_VALUE" } := by
  simp only [calculateFutureValue]
  rw [if_neg (not_le.mpr hP), if_neg (not_lt.mpr hr), if_neg (not_le.mpr ht),
    if_neg (by omega : ¬ n ≤ 0), if_neg (by simp [hinfl])]

/-- Unfolding of the present-value solver when all four validation guards
pass. -/
theorem calculatePresentValue_eq (fv r t : ℚ) (n : ℕ) (cc : String)
    (sym : Option String) (hfv : 0 < fv) (hr : 0 ≤ r) (ht : 0 < t) (hn : n ≠ 0) :
    calculatePresentValue fv r t n cc sym =
      { calculatedPrincipal := some (fv / jsPow (1 + (r / 100) / (n : ℚ)) ((n : ℚ) * t)),
        currencyCode := cc,
        customCurrencySymbol := sym,
        calculationTarget := some "PRINCIPAL" } := by
  simp only [calculatePresentValue]
  rw [if_neg (not_le.mpr hfv), if_neg (not_lt.mpr hr), if_neg (not_le.mpr ht),
    if_neg (by omega : ¬ n ≤ 0)]

/-- The first entry the loop records (if any) charges interest on the
balance the loop was entered with. -/
theorem amortizeFrom_head_interest (rate nPayments p b : ℚ) (i fuel : ℕ) :
    ∀ e, (amortizeFrom rate nPayments p b i (fuel + 1)).1.head? = some e →
      e.interestPaid = b * rate := by
  intro e he
  rw [amortizeFrom_succ] at he
  simp only [List.head?_cons, Option.some.injEq] at he
  subst he
  rfl

/-- The future-value solver copies the currency fields through unchanged on
every branch. -/
theorem calculateFutureValue_currency (P r t : ℚ) (n : ℕ) (cc : String)
    (sym : Option String) (infl : Option ℚ) :
    (calculateFutureValue P r t n cc sym infl).currencyCode = cc ∧
    (calculateFutureValue P r t n cc sym infl).customCurrencySymbol = sym := by
  simp only [calculateFutureValue]
  repeat' split
  all_goals exact ⟨rfl, rfl⟩

/-- The present-value solver copies the currency fields through unchanged on
every branch. -/
theorem calculatePresentValue_currency (fv r t : ℚ) (n : ℕ) (cc : String)
    (sym : Option String) :
    (calculatePresentValue fv r t n cc sym).currencyCode = cc ∧
    (calculatePresentValue fv r t n cc sym).customCurrencySymbol = sym := by
  simp only [calculatePresentValue]
  repeat' split
  all_goals exact ⟨rfl, rfl⟩

/-- The rate solver copies the currency fields through unchanged on every
branch. -/
theorem calculateAnnualInterestRate_currency (P fv t : ℚ) (n : ℕ) (cc : String)
    (sym : Option String) :
    (calculateAnnualInterestRate P fv t n cc sym).currencyCode = cc ∧
    (calculateAnnualInterestRate P fv t n cc sym).customCurrencySymbol = sym := by
  simp only [calculateAnnualInterestRate]
  repeat' split
  all_goals exact ⟨rfl, rfl⟩

/-- The time solver copies the currency fields through unchanged on every
branch. -/
theorem calculateTimePeriod_currency (P fv r : ℚ) (n : ℕ) (cc : String)
    (sym : Option String) :
    (calculateTimePeriod P fv r n cc sym).currencyCode = cc ∧
    (calculateTimePeriod P fv r n cc sym).customCurrencySymbol = sym := by
  simp only [calculateTimePeriod]
  repeat' split
  all_goals exact ⟨rfl, rfl⟩

/-- The loan solver copies the currency fields through unchanged on every
branch. -/
theorem calculateLoanPayment_currency (A r t : ℚ) (pf : ℕ) (cc : String)
    (sym : Option String) :
    (calculateLoanPayment A r t pf cc sym).currencyCode = cc ∧
    (calculateLoanPayment A r t pf cc sym).customCurrencySymbol = sym := by
  simp only [calculateLoanPayment]
  repeat' split
  all_goals exact ⟨rfl, rfl⟩

/-- On any error of the future-value solver, the result is fully zeroed. -/
theorem calculateFutureValue_error_zeroed (P r t : ℚ) (n : ℕ) (cc : String)
    (sym : Option String) (infl : Option ℚ) (e : String)
    (herr : (calculateFutureValue P r t n cc sym infl).error = some e) :
    fullyZeroed (calculateFutureValue P r t n cc sym infl) := by
  simp only [calculateFutureValue] at herr ⊢
  repeat' split at herr <;> try simp at herr
  all_goals simp [fullyZeroed, *]

/-- On any error of the present-value solver, the result is fully zeroed. -/
theorem calculatePresentValue_error_zeroed (fv r t : ℚ) (n : ℕ) (cc : String)
    (sym : Option String) (e : String)
    (herr : (calculatePresentValue fv r t n cc sym).error = some e) :
    fullyZeroed (calculatePresentValue fv r t n cc sym) := by
  simp only [calculatePresentValue] at herr ⊢
  repeat' split at herr <;> try simp at herr
  all_goals simp [fullyZeroed, *]

/-- On any error of the rate solver, the result is fully zeroed. -/
theorem calculateAnnualInterestRate_error_zeroed (P fv t : ℚ) (n : ℕ) (cc : String)
    (sym : Option String) (e : String)
    (herr : (calculateAnnualInterestRate P fv t n cc sym).error = some e) :
    fullyZeroed (calculateAnnualInterestRate P fv t n cc sym) := by
  simp only [calculateAnnualInterestRate] at herr ⊢
  repeat' split at herr <;> try simp at herr
  all_goals simp [fullyZeroed, *]

/-- On any error of the time solver, the result is fully zeroed. -/
theorem calculateTimePeriod_error_zeroed (P fv r : ℚ) (n : ℕ) (cc : String)
    (sym : Option String) (e : String)
    (herr : (calculateTimePeriod P fv r n cc sym).error = some e) :
    fullyZeroed (calculateTimePeriod P fv r n cc sym) := by
  simp only [calculateTimePeriod] at herr ⊢
  repeat' split at herr <;> try simp at herr
  all_goals simp [fullyZeroed, *]

/-- On any error of the loan solver, the result is fully zeroed. -/
theorem calculateLoanPayment_error_zeroed (A r t : ℚ) (pf : ℕ) (cc : String)
    (sym : Option String) (e : String)
    (herr : (calculateLoanPayment A r t pf cc sym).error = some e) :
    fullyZeroed (calculateLoanPayment A r t pf cc sym) := by
  simp only [calculateLoanPayment] at herr ⊢
  repeat' split at herr <;> try simp at herr
  all_goals simp [fullyZeroed, *]

/-! ### Claim theorems -/

/-- C1: for every valid loan input (loanAmount > 0, rate ≥ 0, term > 0) and
every payment frequency in the PaymentFrequency enum {1, 2, 4, 12, 26, 52},
the solver computes the periodic rate as `(annualRate/100) / paymentFrequency`
and the total payment count as `loanTerm × paymentFrequency`: observably, the
amortization schedule has `loanTerm × paymentFrequency` entries and its first
entry charges interest `loanAmount × ((annualRate/100)/paymentFrequency)` on
the full loan amount. -/
theorem claim_C1_periodic_rate_and_payment_count
    (loanAmount loanInterestRate loanTerm : ℚ) (pf Nn : ℕ)
    (cc : String) (sym : Option String)
    (hA : 0 < loanAmount) (hr : 0 ≤ loanInterestRate) (ht : 0 < loanTerm)
    (hpf : pf ∈ paymentFrequencies) (hN : loanTerm * (pf : ℚ) = (Nn : ℚ)) :
    ∃ schedule,
      (calculateLoanPayment loanAmount loanInterestRate loanTerm pf cc sym).amortizationSchedule
        = some schedule ∧
      schedule.length = Nn ∧
      ∀ e, schedule.head? = some e →
        e.interestPaid = loanAmount * ((loanInterestRate / 100) / (pf : ℚ)) := by
  rw [calculateLoanPayment_eq _ _ _ _ _ _ hA hr ht]
  refine ⟨_, rfl, ?_, ?_⟩
  · rw [amortizeFrom_length, hN, Int.floor_natCast, Int.toNat_natCast]
  · intro e he
    cases hfuel : ⌊loanTerm * (pf : ℚ)⌋.toNat with
    | zero =>
      rw [hfuel, amortizeFrom_zero] at he
      simp at he
    | succ f =>
      rw [hfuel] at he
      exact amortizeFrom_head_interest _ _ _ _ 1 f e he

/-- Witness for C1 at a concrete valid input (a one-year monthly loan). -/
theorem claim_C1_periodic_rate_and_payment_count_witness :
    ∃ schedule,
      (calculateLoanPayment 100 12 1 12 "USD" none).amortizationSchedule = some schedule ∧
      schedule.length = 12 ∧
      ∀ e, schedule.head? = some e →
        e.interestPaid = 100 * (((12 : ℚ) / 100) / ((12 : ℕ) : ℚ)) :=
  claim_C1_periodic_rate_and_payment_count 100 12 1 12 12 "USD" none
    (by norm_num) (by norm_num) (by norm_num) (by decide) (by push_cast; ring)

/-- C3: feeding the future-value solver's result into the present-value
solver with the same rate, time and compounding frequency returns the
principal exactly (stated on the exact-arithmetic fragment, i.e. whenever
`n·t` is a whole number of compounding periods, which is where the rational
model coincides with real-number `Math.pow`). -/
theorem claim_C3_fv_pv_roundtrip (P r t : ℚ) (n m : ℕ) (cc cc2 : String)
    (sym sym2 : Option String)
    (hP : 0 < P) (hr : 0 ≤ r) (ht : 0 < t) (hn : n ≠ 0)
    (hm : (n : ℚ) * t = (m : ℚ)) :
    ∃ fv, (calculateFutureValue P r t n cc sym none).calculatedFutureValue = some fv ∧
      (calculatePresentValue fv r t n cc2 sym2).calculatedPrincipal = some P := by
  rw [calculateFutureValue_eq P r t n cc sym none hP hr ht hn rfl]
  refine ⟨_, rfl, ?_⟩
  have hbase : (0 : ℚ) < 1 + (r / 100) / (n : ℚ) := by
    have h0 : (0 : ℚ) ≤ (r / 100) / (n : ℚ) := by positivity
    linarith
  have hpow : (0 : ℚ) < (1 + (r / 100) / (n : ℚ)) ^ m := pow_pos hbase m
  have hfv : 0 < P * jsPow (1 + (r / 100) / (n : ℚ)) ((n : ℚ) * t) := by
    rw [hm, jsPow_natCast]
    positivity
  rw [calculatePresentValue_eq _ r t n cc2 sym2 hfv hr ht hn]
  rw [hm, jsPow_natCast]
  rw [mul_div_assoc, div_self (ne_of_gt hpow), mul_one]

/-- Witness for C3 at a concrete valid input. -/
theorem claim_C3_fv_pv_roundtrip_witness :
    ∃ fv, (calculateFutureValue 100 5 2 1 "USD" none none).calculatedFutureValue = some fv ∧
      (calculatePresentValue fv 5 2 1 "EUR" none).calculatedPrincipal = some 100 :=
  claim_C3_fv_pv_roundtrip 100 5 2 1 2 "USD" "EUR" none none
    (by norm_num) (by norm_num) (by norm_num) (by norm_num) (by push_cast; ring)

/-- C6: the future-value solver evaluates its precondition checks in the
fixed order principal ≤ 0, rate < 0, time ≤ 0, frequency ≤ 0, inflation
provided and negative; the first failing check alone determines the error
string, with the future value zeroed. -/
theorem claim_C6_fv_check_order (P r t : ℚ) (n : ℕ) (infl : Option ℚ)
    (cc : String) (sym : Option String) :
    (P ≤ 0 →
      (calculateFutureValue P r t n cc sym infl).error =
        some "Principal amount must be positive." ∧
      (calculateFutureValue P r t n cc sym infl).calculatedFutureValue = some 0) ∧
    (0 < P → r < 0 →
      (calculateFutureValue P r t n cc sym infl).error =
        some "Annual interest rate cannot be negative." ∧
      (calculateFutureValue P r t n cc sym infl).calculatedFutureValue = some 0) ∧
    (0 < P → 0 ≤ r → t ≤ 0 →
      (calculateFutureValue P r t n cc sym infl).error =
        some "Time period must be positive." ∧
      (calculateFutureValue P r t n cc sym infl).calculatedFutureValue = some 0) ∧
    (0 < P → 0 ≤ r → 0 < t → n = 0 →
      (calculateFutureValue P r t n cc sym infl).error =
        some "Compounding frequency must be positive." ∧
      (calculateFutureValue P r t n cc sym infl).calculatedFutureValue = some 0) ∧
    (0 < P → 0 ≤ r → 0 < t → n ≠ 0 → (∃ ir, infl = some ir ∧ ir < 0) →
      (calculateFutureValue P r t n cc sym infl).error =
        some "Inflation rate cannot be negative." ∧
      (calculateFutureValue P r t n cc sym infl).calculatedFutureValue = some 0) := by
  refine ⟨?_, ?_, ?_, ?_, ?_⟩
  · intro h1
    simp [calculateFutureValue, if_pos h1]
  · intro h1 h2
    simp [calculateFutureValue, if_neg (not_le.mpr h1), if_pos h2]
  · intro h1 h2 h3
    simp [calculateFutureValue, if_neg (not_le.mpr h1), if_neg (not_lt.mpr h2), if_pos h3]
  · intro h1 h2 h3 h4
    simp [calculateFutureValue, if_neg (not_le.mpr h1), if_neg (not_lt.mpr h2),
      if_neg (not_le.mpr h3), h4]
  · intro h1 h2 h3 h4 h5
    obtain ⟨ir, rfl, hir⟩ := h5
    have hcond : inflationProvidedAndNegative (some ir) = true := by
      simp only [inflationProvidedAndNegative, decide_eq_true_eq]
      exact hir
    simp [calculateFutureValue, if_neg (not_le.mpr h1), if_neg (not_lt.mpr h2),
      if_neg (not_le.mpr h3), if_neg h4, hcond]

/-- Witness for C6: each of the five checks observed firing first at a
concrete input. -/
theorem claim_C6_fv_check_order_witness :
    (calculateFutureValue (-1) 5 10 12 "USD" none none).error =
      some "Principal amount must be positive." ∧
    (calculateFutureValue 100 (-1) 10 12 "USD" none none).error =
      some "Annual interest rate cannot be negative." ∧
    (calculateFutureValue 100 5 0 12 "USD" none none).error =
      some "Time period must be positive." ∧
    (calculateFutureValue 100 5 10 0 "USD" none none).error =
      some "Compounding frequency must be positive." ∧
    (calculateFutureValue 100 5 10 12 "USD" none (some (-2))).error =
      some "Inflation rate cannot be negative." :=
  ⟨((claim_C6_fv_check_order (-1) 5 10 12 none "USD" none).1 (by norm_num)).1,
   ((claim_C6_fv_check_order 100 (-1) 10 12 none "USD" none).2.1 (by norm_num) (by norm_num)).1,
   ((claim_C6_fv_check_order 100 5 0 12 none "USD" none).2.2.1 (by norm_num) (by norm_num)
     (by norm_num)).1,
   ((claim_C6_fv_check_order 100 5 10 0 none "USD" none).2.2.2.1 (by norm_num) (by norm_num)
     (by norm_num) rfl).1,
   ((claim_C6_fv_check_order 100 5 10 12 (some (-2)) "USD" none).2.2.2.2 (by norm_num)
     (by norm_num) (by norm_num) (by norm_num) ⟨-2, rfl, by norm_num⟩).1⟩

/-- C7: the dispatcher stamps the input's calculation target onto every
result, and an out-of-enumeration target yields the soft
"Invalid calculation target." error rather than an exception. -/
theorem claim_C7_dispatch_target (inputs : InvestmentInputs) :
    (performFinancialCalculation inputs).calculationTarget = some inputs.calculationTarget ∧
    (inputs.calculationTarget ∉ calculationTargets →
      (performFinancialCalculation inputs).error = some "Invalid calculation target.") := by
  constructor
  · simp only [performFinancialCalculation]
  · intro h
    simp only [calculationTargets, List.mem_cons, List.not_mem_nil, or_false, not_or] at h
    obtain ⟨h1, h2, h3, h4, h5⟩ := h
    simp only [performFinancialCalculation, if_neg h1, if_neg h2, if_neg h3, if_neg h4,
      if_neg h5]

/-- Witness for C7: a concrete out-of-enumeration target. -/
theorem claim_C7_dispatch_target_witness :
    (performFinancialCalculation
      { calculationTarget := "LOAN_TO_VALUE", principalInput := 1, futureValueInput := 1,
        annualInterestRateInput := 1, timePeriodInput := 1, loanAmountInput := 1,
        loanInterestRateInput := 1, loanTermInput := 1, paymentFrequency := 12,
        compoundingFrequency := 12, currencyCode := "USD" }).error =
      some "Invalid calculation target." :=
  (claim_C7_dispatch_target _).2 (by simp [calculationTargets])

/-- C10: on every branch of every solver and of the dispatcher, the result
carries the input's currency code and custom currency symbol unchanged. -/
theorem claim_C10_currency_passthrough (inputs : InvestmentInputs) :
    (performFinancialCalculation inputs).currencyCode = inputs.currencyCode ∧
    (performFinancialCalculation inputs).customCurrencySymbol = inputs.customCurrencySymbol := by
  simp only [performFinancialCalculation]
  split
  · exact calculateFutureValue_currency _ _ _ _ _ _ _
  · split
    · exact calculatePresentValue_currency _ _ _ _ _ _
    · split
      · exact calculateAnnualInterestRate_currency _ _ _ _ _ _
      · split
        · exact calculateTimePeriod_currency _ _ _ _ _ _
        · split
          · exact calculateLoanPayment_currency _ _ _ _ _ _
          · exact ⟨rfl, rfl⟩

/-- C9: whenever the engine returns an error, all computed numeric output
fields of the result are zero (or absent), and no auxiliary series is
attached — the error string and fully zeroed outputs, nothing half
computed. -/
theorem claim_C9_error_implies_zeroed (inputs : InvestmentInputs) (e : String)
    (herr : (performFinancialCalculation inputs).error = some e) :
    fullyZeroed (performFinancialCalculation inputs) := by
  by_cases h1 : inputs.calculationTarget = "FUTURE_VALUE"
  · simp only [performFinancialCalculation, if_pos h1] at herr ⊢
    exact calculateFutureValue_error_zeroed _ _ _ _ _ _ _ e herr
  · by_cases h2 : inputs.calculationTarget = "PRINCIPAL"
    · simp only [performFinancialCalculation, if_neg h1, if_pos h2] at herr ⊢
      exact calculatePresentValue_error_zeroed _ _ _ _ _ _ e herr
    · by_cases h3 : inputs.calculationTarget = "ANNUAL_INTEREST_RATE"
      · simp only [performFinancialCalculation, if_neg h1, if_neg h2, if_pos h3] at herr ⊢
        exact calculateAnnualInterestRate_error_zeroed _ _ _ _ _ _ e herr
      · by_cases h4 : inputs.calculationTarget = "TIME_PERIOD"
        · simp only [performFinancialCalculation, if_neg h1, if_neg h2, if_neg h3,
            if_pos h4] at herr ⊢
          exact calculateTimePeriod_error_zeroed _ _ _ _ _ _ e herr
        · by_cases h5 : inputs.calculationTarget = "LOAN_PAYMENT"
          · simp only [performFinancialCalculation, if_neg h1, if_neg h2, if_neg h3,
              if_neg h4, if_pos h5] at herr ⊢
            exact calculateLoanPayment_error_zeroed _ _ _ _ _ _ e herr
          · simp only [performFinancialCalculation, if_neg h1, if_neg h2, if_neg h3,
              if_neg h4, if_neg h5]
            simp [fullyZeroed]

/-- Witness for C9 at a concrete error input (PRINCIPAL target with a zero
future value). -/
theorem claim_C9_error_implies_zeroed_witness :
    fullyZeroed (performFinancialCalculation
      { calculationTarget := "PRINCIPAL", principalInput := 0, futureValueInput := 0,
        annualInterestRateInput := 5, timePeriodInput := 10, loanAmountInput := 0,
        loanInterestRateInput := 0, loanTermInput := 0, paymentFrequency := 12,
        compoundingFrequency := 1, currencyCode := "USD" }) :=
  claim_C9_error_implies_zeroed _ "Future value must be positive."
    (by simp [performFinancialCalculation, calculatePresentValue])

/-- C8: with a zero loan interest rate the solver takes the straight-line
branch: the returned periodic payment is exactly
`loanAmount / (loanTerm × paymentFrequency)` — including after the
final-payment correction — and every amortization entry charges zero
interest. -/
theorem claim_C8_zero_rate_straight_line (loanAmount loanTerm : ℚ) (pf : ℕ)
    (cc : String) (sym : Option String)
    (hA : 0 < loanAmount) (ht : 0 < loanTerm) (hpf : pf ≠ 0) :
    (calculateLoanPayment loanAmount 0 loanTerm pf cc sym).calculatedMonthlyPayment =
      some (loanAmount / (loanTerm * (pf : ℚ))) ∧
    ∀ e ∈ ((calculateLoanPayment loanAmount 0 loanTerm pf cc sym).amortizationSchedule.getD []),
      e.interestPaid = 0 := by
  rw [calculateLoanPayment_eq _ _ _ _ _ _ hA le_rfl ht]
  have hrate : (0 : ℚ) / 100 / (pf : ℚ) = 0 := by norm_num
  rw [hrate]
  rw [if_pos rfl]
  have hpfQ : (0 : ℚ) < (pf : ℚ) := by exact_mod_cast Nat.pos_of_ne_zero hpf
  have hNpos : (0 : ℚ) < loanTerm * (pf : ℚ) := by positivity
  constructor
  · simp only [Option.some.injEq]
    by_cases hden : (loanTerm * (pf : ℚ)).den = 1
    · -- the total payment count is a whole number Nn ≥ 1
      have hint : ((loanTerm * (pf : ℚ)).num : ℚ) = loanTerm * (pf : ℚ) := by
        conv_rhs => rw [← Rat.num_div_den (loanTerm * (pf : ℚ))]
        rw [hden]
        simp
      have hnumpos : 0 < (loanTerm * (pf : ℚ)).num := by
        by_contra hcon
        push_neg at hcon
        have : ((loanTerm * (pf : ℚ)).num : ℚ) ≤ 0 := by exact_mod_cast hcon
        rw [hint] at this
        linarith
      obtain ⟨m, hm⟩ : ∃ m : ℕ, (loanTerm * (pf : ℚ)).num = (m : ℤ) + 1 :=
        ⟨((loanTerm * (pf : ℚ)).num - 1).toNat, by omega⟩
      have hNm : loanTerm * (pf : ℚ) = ((m + 1 : ℕ) : ℚ) := by
        rw [← hint, hm]
        push_cast
        ring
      rw [hNm, Int.floor_natCast, Int.toNat_natCast]
      rw [amortizeFrom_zero_rate_snd ((m + 1 : ℕ) : ℚ)
        (loanAmount / ((m + 1 : ℕ) : ℚ)) m loanAmount 1 (by push_cast; ring)]
      have hm1 : ((m + 1 : ℕ) : ℚ) ≠ 0 := by
        push_cast
        positivity
      field_simp
      ring
    · -- fractional total payment count: the correction never fires
      rw [amortizeFrom_snd_of_ne]
      intro k _ _ hk
      have : ((k : ℚ)).den = (loanTerm * (pf : ℚ)).den := by rw [hk]
      rw [Rat.den_natCast] at this
      exact hden this.symm
  · intro e he
    simp only [Option.getD_some] at he
    have h := amortizeFrom_mem_invariants 0 (loanTerm * (pf : ℚ)) _ _ _ _ e he
    rw [h.1, mul_zero]

/-- Witness for C8 at a concrete zero-rate loan. -/
theorem claim_C8_zero_rate_straight_line_witness :
    (calculateLoanPayment 100 0 1 2 "USD" none).calculatedMonthlyPayment =
      some (100 / (1 * ((2 : ℕ) : ℚ))) ∧
    ∀ e ∈ ((calculateLoanPayment 100 0 1 2 "USD" none).amortizationSchedule.getD []),
      e.interestPaid = 0 :=
  claim_C8_zero_rate_straight_line 100 1 2 "USD" none (by norm_num) (by norm_num) (by norm_num)

/-- C2 is refuted as stated: at the valid input loanAmount = 100 > 0,
loanInterestRate = 0 ≥ 0, loanTerm = 1/2 > 0 with annual payments
(paymentFrequency = 1, a legal enum value), the loop bound
`⌊loanTerm × paymentFrequency⌋ = 0` makes the amortization schedule empty,
so it has no final entry at all (in particular none with ending balance 0). -/
theorem claim_C2_counterexample :
    (0 : ℚ) < 100 ∧ (0 : ℚ) ≤ 0 ∧ (0 : ℚ) < 1 / 2 ∧ (1 : ℕ) ∈ paymentFrequencies ∧
    ((calculateLoanPayment 100 0 (1 / 2) 1 "USD" none).amortizationSchedule.getD []).getLast?
      = none := by
  refine ⟨by norm_num, le_rfl, by norm_num, by decide, ?_⟩
  rw [calculateLoanPayment_eq 100 0 (1 / 2) 1 "USD" none (by norm_num) le_rfl (by norm_num)]
  have hfuel : (⌊(1 / 2 : ℚ) * ((1 : ℕ) : ℚ)⌋).toNat = 0 := by norm_num
  rw [Option.getD_some, hfuel, amortizeFrom_zero]
  rfl

/-- C2 (amended): for every valid loan input whose total payment count
`loanTerm × paymentFrequency` is a positive integer (the claim fails only
when the term is a fractional number of payment periods, where the loop
truncates and the correction never fires), the final schedule entry has
ending balance exactly 0, and the returned totals are exactly the sums of
`interestPaid + principalPaid` over the schedule (and that sum minus the
loan amount for the total interest). -/
theorem claim_C2_amended_final_balance_and_totals
    (loanAmount loanInterestRate loanTerm : ℚ) (pf Nn : ℕ) (cc : String) (sym : Option String)
    (hA : 0 < loanAmount) (hr : 0 ≤ loanInterestRate) (ht : 0 < loanTerm)
    (hN : loanTerm * (pf : ℚ) = (Nn : ℚ)) (hN1 : 1 ≤ Nn) :
    ∃ schedule lastEntry,
      (calculateLoanPayment loanAmount loanInterestRate loanTerm pf cc sym).amortizationSchedule
        = some schedule ∧
      schedule.getLast? = some lastEntry ∧
      lastEntry.endingBalance = 0 ∧
      (calculateLoanPayment loanAmount loanInterestRate loanTerm pf cc sym).calculatedTotalAmountPaid
        = some ((schedule.map (fun e => e.interestPaid + e.principalPaid)).sum) ∧
      (calculateLoanPayment loanAmount loanInterestRate loanTerm pf cc sym).calculatedTotalInterestPaid
        = some ((schedule.map (fun e => e.interestPaid + e.principalPaid)).sum - loanAmount) := by
  rw [calculateLoanPayment_eq _ _ _ _ _ _ hA hr ht, hN]
  obtain ⟨f, rfl⟩ : ∃ f, Nn = f + 1 := ⟨Nn - 1, by omega⟩
  rw [Int.floor_natCast, Int.toNat_natCast]
  obtain ⟨lastE, hlast, hzero⟩ :=
    amortizeFrom_getLast_ending ((loanInterestRate / 100) / (pf : ℚ)) ((f + 1 : ℕ) : ℚ)
      (f + 1)
      (if (loanInterestRate / 100) / (pf : ℚ) = 0 then loanAmount / ((f + 1 : ℕ) : ℚ)
       else
         loanAmount *
           ((loanInterestRate / 100) / (pf : ℚ) *
             jsPow (1 + (loanInterestRate / 100) / (pf : ℚ)) ((f + 1 : ℕ) : ℚ)) /
           (jsPow (1 + (loanInterestRate / 100) / (pf : ℚ)) ((f + 1 : ℕ) : ℚ) - 1))
      loanAmount 1 (by push_cast; ring) (by omega)
  refine ⟨_, lastE, rfl, hlast, hzero, ?_, ?_⟩
  · rw [foldl_add_eq_sum, zero_add]
  · rw [foldl_add_eq_sum, zero_add]

/-- Witness for the amended C2 at a concrete valid loan. -/
theorem claim_C2_amended_final_balance_and_totals_witness :
    ∃ schedule lastEntry,
      (calculateLoanPayment 100 0 1 2 "USD" none).amortizationSchedule = some schedule ∧
      schedule.getLast? = some lastEntry ∧
      lastEntry.endingBalance = 0 ∧
      (calculateLoanPayment 100 0 1 2 "USD" none).calculatedTotalAmountPaid
        = some ((schedule.map (fun e => e.interestPaid + e.principalPaid)).sum) ∧
      (calculateLoanPayment 100 0 1 2 "USD" none).calculatedTotalInterestPaid
        = some ((schedule.map (fun e => e.interestPaid + e.principalPaid)).sum - 100) :=
  claim_C2_amended_final_balance_and_totals 100 0 1 2 2 "USD" none
    (by norm_num) le_rfl (by norm_num) (by push_cast; ring) (by norm_num)

/-- C4 is refuted as stated: at the valid input loanAmount = 100, rate = 0,
loanTerm = 1, paymentFrequency = 2, the schedule is
[⟨1, 100, 0, 50, 50⟩, ⟨2, 50, 0, 50, 0⟩], and the second entry's
startingBalance (50) is the first entry's endingBalance (50), not the first
entry's endingBalance plus the second entry's principalPaid (100). -/
theorem claim_C4_counterexample :
    (calculateLoanPayment 100 0 1 2 "USD" none).amortizationSchedule =
      some [⟨1, 100, 0, 50, 50⟩, ⟨2, 50, 0, 50, 0⟩] ∧
    ¬ ((⟨2, 50, 0, 50, 0⟩ : AmortizationEntry).startingBalance =
        (⟨1, 100, 0, 50, 50⟩ : AmortizationEntry).endingBalance +
          (⟨2, 50, 0, 50, 0⟩ : AmortizationEntry).principalPaid) := by
  constructor
  · norm_num [calculateLoanPayment, amortizeFrom, Int.toNat_ofNat]
  · norm_num

/-- C4 (amended): for every valid loan input whose total payment count
`loanTerm × paymentFrequency` is a positive integer, every schedule entry
satisfies: startingBalance equals the loan amount for entry 1 and the
previous entry's endingBalance afterwards (the claim's extra
"+ principalPaid_current" does not hold); interestPaid equals
startingBalance × periodic rate; endingBalance equals
max 0 (startingBalance − principalPaid); and paymentNumber is 1-based
sequential. -/
theorem claim_C4_amended_schedule_invariants
    (loanAmount loanInterestRate loanTerm : ℚ) (pf Nn : ℕ) (cc : String) (sym : Option String)
    (hA : 0 < loanAmount) (hr : 0 ≤ loanInterestRate) (ht : 0 < loanTerm)
    (hN : loanTerm * (pf : ℚ) = (Nn : ℚ)) (hN1 : 1 ≤ Nn) :
    ∃ schedule,
      (calculateLoanPayment loanAmount loanInterestRate loanTerm pf cc sym).amortizationSchedule
        = some schedule ∧
      (∀ e, schedule.head? = some e → e.startingBalance = loanAmount) ∧
      List.Chain' (fun e1 e2 => e2.startingBalance = e1.endingBalance) schedule ∧
      (∀ e ∈ schedule,
        e.interestPaid = e.startingBalance * ((loanInterestRate / 100) / (pf : ℚ)) ∧
        e.endingBalance = max 0 (e.startingBalance - e.principalPaid)) ∧
      (∀ (k : ℕ) (e : AmortizationEntry), schedule[k]? = some e → e.paymentNumber = k + 1) := by
  rw [calculateLoanPayment_eq _ _ _ _ _ _ hA hr ht, hN]
  obtain ⟨f, rfl⟩ : ∃ f, Nn = f + 1 := ⟨Nn - 1, by omega⟩
  rw [Int.floor_natCast, Int.toNat_natCast]
  have hnn : ∀ k : ℕ, k < f + 1 →
      0 ≤ (fun x => nextBalance ((loanInterestRate / 100) / (pf : ℚ))
        (if (loanInterestRate / 100) / (pf : ℚ) = 0 then
          loanAmount / ((f + 1 : ℕ) : ℚ)
        else
          loanAmount *
            ((loanInterestRate / 100) / (pf : ℚ) *
              jsPow (1 + (loanInterestRate / 100) / (pf : ℚ)) ((f + 1 : ℕ) : ℚ)) /
            (jsPow (1 + (loanInterestRate / 100) / (pf : ℚ)) ((f + 1 : ℕ) : ℚ) - 1)) x)^[k]
        loanAmount := by
    intro k hk
    by_cases hR : (loanInterestRate / 100) / (pf : ℚ) = 0
    · rw [if_pos hR, hR]
      exact zero_rate_balance_nonneg loanAmount (f + 1) hA (by omega) k (by omega)
    · have hRpos : 0 < (loanInterestRate / 100) / (pf : ℚ) :=
        lt_of_le_of_ne (by positivity) (Ne.symm hR)
      rw [if_neg hR, jsPow_natCast]
      exact annuity_balance_nonneg _ loanAmount (f + 1) hRpos hA (by omega) k (by omega)
  refine ⟨_, rfl, ?_, ?_, ?_, ?_⟩
  · intro e he
    exact amortizeFrom_head_start _ _ _ _ 1 f e he
  · exact amortizeFrom_chain _ _ _ (f + 1) loanAmount 1 (by push_cast; ring) hnn
  · intro e he
    exact amortizeFrom_mem_invariants _ _ _ _ _ _ e he
  · intro k e h
    have := amortizeFrom_paymentNumber _ _ _ _ _ 1 k e h
    omega

/-- Witness for the amended C4 at a concrete valid loan (two semi-annual
payments at 10% annual interest). -/
theorem claim_C4_amended_schedule_invariants_witness :
    ∃ schedule,
      (calculateLoanPayment 1000 10 1 2 "USD" none).amortizationSchedule = some schedule ∧
      (∀ e, schedule.head? = some e → e.startingBalance = 1000) ∧
      List.Chain' (fun e1 e2 => e2.startingBalance = e1.endingBalance) schedule ∧
      (∀ e ∈ schedule,
        e.interestPaid = e.startingBalance * (((10 : ℚ) / 100) / ((2 : ℕ) : ℚ)) ∧
        e.endingBalance = max 0 (e.startingBalance - e.principalPaid)) ∧
      (∀ (k : ℕ) (e : AmortizationEntry), schedule[k]? = some e → e.paymentNumber = k + 1) :=
  claim_C4_amended_schedule_invariants 1000 10 1 2 2 "USD" none
    (by norm_num) (by norm_num) (by norm_num) (by push_cast; ring) (by norm_num)

/-- A positive rational with denominator 1 is a positive natural number. -/
theorem rat_pos_den_one_eq_natCast (q : ℚ) (hden : q.den = 1) (hq : 0 < q) :
    ∃ m : ℕ, q = ((m : ℕ) : ℚ) ∧ 1 ≤ m := by
  have hint : ((q.num : ℤ) : ℚ) = q := by
    conv_rhs => rw [← Rat.num_div_den q]
    rw [hden]
    simp
  have hnum : 0 < q.num := by
    by_contra hc
    push_neg at hc
    have h2 : ((q.num : ℤ) : ℚ) ≤ 0 := by exact_mod_cast hc
    rw [hint] at h2
    linarith
  refine ⟨q.num.toNat, ?_, by omega⟩
  rw [← hint]
  norm_cast
  omega

/-- C5: for every valid FUTURE_VALUE input the growth series has exactly
`⌊t⌋` entries (a fractional time period is silently truncated), entry `k`
(0-based) is year `k + 1` with value `P·(1 + r/n)^(n·(k+1))` computed
directly from the principal, and for an integer time period the last
entry's value equals the returned future value. -/
theorem claim_C5_growth_series (P r t : ℚ) (n : ℕ) (cc : String) (sym : Option String)
    (infl : Option ℚ) (hP : 0 < P) (hr : 0 ≤ r) (ht : 0 < t) (hn : n ≠ 0)
    (hinfl : inflationProvidedAndNegative infl = false) :
    ∃ gd, (calculateFutureValue P r t n cc sym infl).growthData = some gd ∧
      gd.length = ⌊t⌋.toNat ∧
      (∀ (k : ℕ) (e : GrowthPoint), gd[k]? = some e →
        e.year = k + 1 ∧ e.value = P * (1 + (r / 100) / (n : ℚ)) ^ (n * (k + 1))) ∧
      (t.den = 1 → ∃ lastE, gd.getLast? = some lastE ∧
        some lastE.value = (calculateFutureValue P r t n cc sym infl).calculatedFutureValue) := by
  rw [calculateFutureValue_eq P r t n cc sym infl hP hr ht hn hinfl]
  refine ⟨_, rfl, by simp, ?_, ?_⟩
  · intro k e he
    have hlt : k < ⌊t⌋.toNat := by
      by_contra hc
      push_neg at hc
      rw [List.getElem?_eq_none (by simpa using hc)] at he
      exact Option.noConfusion he
    rw [List.getElem?_map, List.getElem?_range hlt] at he
    simp only [Option.map_some', Option.some.injEq] at he
    subst he
    refine ⟨rfl, ?_⟩
    have hcast : ((n : ℚ) * ((k : ℚ) + 1)) = ((n * (k + 1) : ℕ) : ℚ) := by
      push_cast
      ring
    simp only []
    rw [hcast, jsPow_natCast]
  · intro hden
    obtain ⟨m, hm, hm1⟩ := rat_pos_den_one_eq_natCast t hden ht
    rw [hm, Int.floor_natCast, Int.toNat_natCast, List.getLast?_eq_getElem?]
    simp only [List.length_map, List.length_range]
    have hlt : m - 1 < m := by omega
    rw [List.getElem?_map, List.getElem?_range hlt]
    simp only [Option.map_some']
    refine ⟨_, rfl, ?_⟩
    have hc : ((m - 1 : ℕ) : ℚ) + 1 = (m : ℚ) := by
      rw [Nat.cast_sub hm1]
      push_cast
      ring
    simp only []
    rw [hc]

/-- Witness for C5 at the spec's concrete scenario (P = 10000, r = 5,
t = 10, n = 1). -/
theorem claim_C5_growth_series_witness :
    ∃ gd, (calculateFutureValue 10000 5 10 1 "USD" none none).growthData = some gd ∧
      gd.length = ⌊(10 : ℚ)⌋.toNat ∧
      (∀ (k : ℕ) (e : GrowthPoint), gd[k]? = some e →
        e.year = k + 1 ∧ e.value = 10000 * (1 + ((5 : ℚ) / 100) / ((1 : ℕ) : ℚ)) ^ (1 * (k + 1))) ∧
      ((10 : ℚ).den = 1 → ∃ lastE, gd.getLast? = some lastE ∧
        some lastE.value = (calculateFutureValue 10000 5 10 1 "USD" none none).calculatedFutureValue) :=
  claim_C5_growth_series 10000 5 10 1 "USD" none none
    (by norm_num) (by norm_num) (by norm_num) (by norm_num) rfl
